import Mathlib

/-!
Shallow embedding of `internal/controller/answer_controller.go` from the
incubator-answer repository.  Each HTTP handler is modelled as a pure function
from an environment (the results that the external collaborators — rank
service, captcha service, rate-limit middleware, site-info service, answer
service — would return for this request) to the ordered list of collaborator
calls the handler performs (its event trace) together with the response it
writes.  The handlers are translated from the Go source as a chain of guards,
one per early `return`; the trace attached to each guard is the sequence of
collaborator calls executed up to that return.  The rank-service internals,
which are not part of the analysed sources, are modelled from the spec where
a claim needs them.
-/

/-- Collaborator calls a handler can perform.  `dupCheck` is
`rateLimitMiddleware.DuplicateRequestRejection`, `dupClear` is
`DuplicateRequestClear`, `captchaVerify` is
`actionService.ActionRecordVerifyCaptcha`, `permsBatch` is
`rankService.CheckOperationPermissions`, `permSingle` is
`CheckOperationPermission`, `ownerCheck` is `CheckOperationObjectOwner`,
`siteWrite` is `siteInfoCommonService.GetSiteWrite`, `countByUser` is
`answerService.GetCountByUserIDQuestionID`, `mutation` is the domain mutation
(`RemoveAnswer` / `Insert` / `Update` / `AdminSetAnswerStatus`),
`recordAttempt` is `actionService.ActionRecordAdd`, and `getInfo` is
`answerService.Get`. -/
inductive Ev
  | dupCheck
  | dupClear
  | captchaVerify
  | permsBatch
  | permSingle
  | ownerCheck
  | siteWrite
  | countByUser
  | mutation
  | recordAttempt
  | getInfo
deriving DecidableEq, Repr

/-- The response a handler writes, abstracted to what `handler.HandleResponse`
distinguishes: success (HTTP 200), a binding/validation failure from
`BindAndCheck`, a rejection written by `DuplicateRequestRejection` itself, a
`BadRequest` or `Forbidden` with its reason constant, or a propagated internal
error (any of these non-`ok` outcomes leaves the response status ≠ 200). -/
inductive Resp
  | ok
  | invalid
  | dupRejected
  | badRequest (r : String)
  | forbidden (r : String)
  | err
deriving DecidableEq, Repr

/-- Reason constant `reason.CaptchaVerificationFailed`. -/
def CaptchaVerificationFailed : String := "error.object.verification_failed"

/-- Reason constant `reason.RankFailToMeetTheCondition`. -/
def RankFailToMeetTheCondition : String := "error.rank.fail_to_meet_the_condition"

/-- Reason constant `reason.AnswerRestrictAnswer`. -/
def AnswerRestrictAnswer : String := "error.answer.restrict_answer"

/-- Environment for `RemoveAnswer`: the results of `BindAndCheck`,
`GetUserIsAdminModerator`, `ActionRecordVerifyCaptcha`,
`CheckOperationObjectOwner`, `CheckOperationPermissions` (its error flag and
the single entry for `permission.AnswerDelete`), and whether
`answerService.RemoveAnswer` returns an error. -/
structure RemoveEnv where
  bindOk : Bool
  isAdmin : Bool
  captchaPass : Bool
  objectOwner : Bool
  permsErr : Bool
  canDelete : Bool
  removeErr : Bool

/-- Calls made by `RemoveAnswer` up to and including the captcha check, which
runs only for non-admins (answer_controller.go lines 87-97). -/
def removeT1 (e : RemoveEnv) : List Ev :=
  if !e.isAdmin then [.captchaVerify] else []

/-- Calls made by `RemoveAnswer` up to the permission decision: ownership
lookup then batch permission check (lines 99-102). -/
def removeT2 (e : RemoveEnv) : List Ev :=
  removeT1 e ++ [.ownerCheck, .permsBatch]

/-- Calls made by a `RemoveAnswer` request that reaches the mutation: the
attempt is recorded after the mutation, only for non-admins, regardless of the
mutation's error (lines 113-116). -/
def removeT3 (e : RemoveEnv) : List Ev :=
  removeT2 e ++ [.mutation] ++ (if !e.isAdmin then [.recordAttempt] else [])

/-- Embedding of `AnswerController.RemoveAnswer` (answer_controller.go lines
79-118): bind, then for non-admins verify the captcha, then look up ownership
and the `AnswerDelete` permission, deny with `RankFailToMeetTheCondition` when
neither the permission nor ownership holds, otherwise run the mutation and,
for non-admins, record the attempt, returning the mutation error as the
response. -/
def removeAnswer (e : RemoveEnv) : List Ev × Resp :=
  if !e.bindOk then ([], .invalid)
  else if !e.isAdmin && !e.captchaPass then (removeT1 e, .badRequest CaptchaVerificationFailed)
  else if e.permsErr then (removeT2 e, .err)
  else if !(e.canDelete || e.objectOwner) then (removeT2 e, .forbidden RankFailToMeetTheCondition)
  else (removeT3 e, if e.removeErr then .err else .ok)

example : (removeAnswer ⟨true, false, true, false, false, true, false⟩).1 =
    [.captchaVerify, .ownerCheck, .permsBatch, .mutation, .recordAttempt] := by decide

example : (removeAnswer ⟨true, true, false, false, false, true, false⟩).1 =
    [.ownerCheck, .permsBatch, .mutation] := by decide

/-- Environment for `AddAnswer`: the results of `BindAndCheck`,
`DuplicateRequestRejection`, `CheckOperationPermissions` for
`[AnswerEdit, AnswerDelete, LinkUrlLimit]` (error flag and boolean list),
`GetUserIsAdminModerator`, `ActionRecordVerifyCaptcha`,
`CheckOperationPermission` for `AnswerAdd`, `GetSiteWrite` (error flag and the
`RestrictAnswer` field), `GetCountByUserIDQuestionID` (error flag and the
number of ids returned), `answerService.Insert`, `answerService.Get` (error
flag and the `has` flag), and `CheckOperationObjectOwner`. -/
structure AddEnv where
  bindOk : Bool
  reject : Bool
  permsErr : Bool
  canList : List Bool
  isAdmin : Bool
  captchaPass : Bool
  canAddErr : Bool
  canAdd : Bool
  siteWriteErr : Bool
  restrictAnswer : Bool
  countErr : Bool
  answerCount : Nat
  insertErr : Bool
  getErr : Bool
  getHas : Bool
  objectOwner : Bool

/-- The condition under which `AddAnswer` runs the captcha check and later the
attempt record: `!isAdmin || !linkUrlLimitUser`, with `linkUrlLimitUser`
being `canList[2]`, the result for `permission.LinkUrlLimit`
(answer_controller.go lines 221-223 and 271). -/
def addNeedCaptcha (e : AddEnv) : Bool :=
  !e.isAdmin || !(e.canList.getD 2 false)

/-- Calls made by the `AddAnswer` body up to the batch permission check
(lines 211-215). -/
def addT1 : List Ev := [.permsBatch]

/-- Calls made by the `AddAnswer` body up to the captcha check, which runs
unless the user is an admin with the `LinkUrlLimit` permission
(lines 222-233). -/
def addT2 (e : AddEnv) : List Ev :=
  addT1 ++ (if addNeedCaptcha e then [.captchaVerify] else [])

/-- Calls made by the `AddAnswer` body up to the `AnswerAdd` permission check
(line 235). -/
def addT3 (e : AddEnv) : List Ev := addT2 e ++ [.permSingle]

/-- Calls made by the `AddAnswer` body up to the site-write lookup
(line 245). -/
def addT4 (e : AddEnv) : List Ev := addT3 e ++ [.siteWrite]

/-- Calls made by the `AddAnswer` body up to the per-user answer count, which
runs only when `RestrictAnswer` is enabled (lines 250-252). -/
def addT5 (e : AddEnv) : List Ev :=
  addT4 e ++ (if e.restrictAnswer then [.countByUser] else [])

/-- Calls made by the `AddAnswer` body up to the insert mutation
(line 266). -/
def addT6 (e : AddEnv) : List Ev := addT5 e ++ [.mutation]

/-- Calls made by the `AddAnswer` body after a successful insert: the attempt
record (under the same condition as the captcha check) then the answer fetch
(lines 271-274). -/
def addT7 (e : AddEnv) : List Ev :=
  addT6 e ++ (if addNeedCaptcha e then [.recordAttempt] else []) ++ [.getInfo]

/-- Calls made by a fully successful `AddAnswer` body: the final ownership
lookup happens only when the fetched answer exists (lines 279-284). -/
def addT8 (e : AddEnv) : List Ev :=
  addT7 e ++ (if e.getHas then [.ownerCheck] else [])

/-- Embedding of the body of `AnswerController.AddAnswer` (answer_controller.go
lines 208-293), i.e. everything after the duplicate-rejection check and
excluding the deferred `DuplicateRequestClear`: batch permission lookup, then
captcha verification unless the user is an admin with the `LinkUrlLimit`
permission, then the `AnswerAdd` permission check, then the `RestrictAnswer`
site-write check, then the insert mutation; the attempt is recorded only after
a successful insert, followed by the answer fetch and the final ownership
lookup. -/
def addAnswerBody (e : AddEnv) : List Ev × Resp :=
  if e.permsErr then (addT1, .err)
  else if addNeedCaptcha e && !e.captchaPass then
    (addT2 e, .badRequest CaptchaVerificationFailed)
  else if e.canAddErr then (addT3 e, .err)
  else if !e.canAdd then (addT3 e, .forbidden RankFailToMeetTheCondition)
  else if e.siteWriteErr then (addT4 e, .err)
  else if e.restrictAnswer && e.countErr then (addT5 e, .err)
  else if e.restrictAnswer && decide (1 ≤ e.answerCount) then
    (addT5 e, .forbidden AnswerRestrictAnswer)
  else if e.insertErr then (addT6 e, .err)
  else if e.getErr then (addT7 e, .err)
  else (addT8 e, .ok)

/-- Embedding of `AnswerController.AddAnswer` (answer_controller.go lines
193-293): bind, then the duplicate-rejection check (an early return when
rejected, before the deferred clear is registered), then the body; the
deferred function clears the duplicate record whenever the final status is
not 200, which in this embedding appends `dupClear` to the trace exactly when
the body's response is not `ok`. -/
def addAnswer (e : AddEnv) : List Ev × Resp :=
  if !e.bindOk then ([], .invalid)
  else if e.reject then ([.dupCheck], .dupRejected)
  else
    let b := addAnswerBody e
    ([.dupCheck] ++ b.1 ++ (if b.2 = .ok then [] else [.dupClear]), b.2)

example :
    (addAnswer ⟨true, false, false, [true, true, false], false, true, false, true,
      false, false, false, 0, false, false, true, false⟩).1 =
    [.dupCheck, .permsBatch, .captchaVerify, .permSingle, .siteWrite, .mutation,
      .recordAttempt, .getInfo, .ownerCheck] := by decide

example :
    (addAnswer ⟨true, false, false, [true, true, false], false, false, false, true,
      false, false, false, 0, false, false, true, false⟩) =
    ([.dupCheck, .permsBatch, .captchaVerify, .dupClear],
      .badRequest CaptchaVerificationFailed) := by decide

/-- Environment for `UpdateAnswer`: the results of `BindAndCheck`,
`CheckOperationPermissions` for `[AnswerEdit, AnswerEditWithoutReview,
LinkUrlLimit]`, `GetUserIsAdminModerator`, `ActionRecordVerifyCaptcha`,
`CheckOperationObjectOwner`, `answerService.Update` and
`answerService.Get`. -/
structure UpdateEnv where
  bindOk : Bool
  permsErr : Bool
  canList : List Bool
  isAdmin : Bool
  captchaPass : Bool
  objectOwner : Bool
  updateErr : Bool
  getErr : Bool

/-- The condition under which `UpdateAnswer` runs the captcha check and later
the attempt record: `!isAdmin || !linkUrlLimitUser`, with `linkUrlLimitUser`
being `canList[2]` (answer_controller.go lines 322-324 and 349). -/
def updNeedCaptcha (e : UpdateEnv) : Bool :=
  !e.isAdmin || !(e.canList.getD 2 false)

/-- Calls made by `UpdateAnswer` up to the batch permission check
(lines 312-316). -/
def updT1 : List Ev := [.permsBatch]

/-- Calls made by `UpdateAnswer` up to the captcha check (lines 324-334). -/
def updT2 (e : UpdateEnv) : List Ev :=
  updT1 ++ (if updNeedCaptcha e then [.captchaVerify] else [])

/-- Calls made by `UpdateAnswer` up to the ownership lookup and the edit
permission decision (lines 336-342). -/
def updT3 (e : UpdateEnv) : List Ev := updT2 e ++ [.ownerCheck]

/-- Calls made by `UpdateAnswer` up to the update mutation (line 344). -/
def updT4 (e : UpdateEnv) : List Ev := updT3 e ++ [.mutation]

/-- Calls made by `UpdateAnswer` after a successful update: the attempt record
(under the captcha condition) then the answer fetch (lines 349-352). -/
def updT5 (e : UpdateEnv) : List Ev :=
  updT4 e ++ (if updNeedCaptcha e then [.recordAttempt] else []) ++ [.getInfo]

/-- Embedding of `AnswerController.UpdateAnswer` (answer_controller.go lines
305-358): bind, batch permission lookup, captcha verification unless the user
is an admin with the `LinkUrlLimit` permission, ownership lookup, deny with
`RankFailToMeetTheCondition` unless the `AnswerEdit` permission or ownership
holds, then the update mutation; the attempt is recorded only after a
successful update, followed by the answer fetch. -/
def updateAnswer (e : UpdateEnv) : List Ev × Resp :=
  if !e.bindOk then ([], .invalid)
  else if e.permsErr then (updT1, .err)
  else if updNeedCaptcha e && !e.captchaPass then
    (updT2 e, .badRequest CaptchaVerificationFailed)
  else if !(e.canList.getD 0 false || e.objectOwner) then
    (updT3 e, .forbidden RankFailToMeetTheCondition)
  else if e.updateErr then (updT4 e, .err)
  else if e.getErr then (updT5 e, .err)
  else (updT5 e, .ok)

/-- Environment for `AdminUpdateAnswerStatus`: the result of `BindAndCheck`
and whether `answerService.AdminSetAnswerStatus` returns an error. -/
structure AdminStatusEnv where
  bindOk : Bool
  setErr : Bool

/-- Embedding of `AnswerController.AdminUpdateAnswerStatus`
(answer_controller.go lines 448-458): bind, then the status mutation is
invoked directly and its error is returned as the response. -/
def adminUpdateAnswerStatus (e : AdminStatusEnv) : List Ev × Resp :=
  if !e.bindOk then ([], .invalid)
  else ([.mutation], if e.setErr then .err else .ok)

/-- A per-action permission rule: the minimum rank to act on objects of
others, and the optional lower minimum rank for the owner of the object
(spec §3 "Permission Rule"). -/
structure PermissionRule where
  othersThreshold : Nat
  ownerThreshold : Option Nat
deriving DecidableEq, Repr

/-- Modelled from the spec: the Permission Evaluator's
`Evaluate(userRank, action, isOwner, isAdmin)` (§4.1), whose implementation is
not among the analysed sources.  Look up the configured rank threshold; if
`isAdmin` permit; else if `isOwner` and an owner threshold is configured and
`userRank ≥ ownerThreshold` permit; else if `userRank ≥ othersThreshold`
permit; else deny.  A missing rule is the `ConfigurationMissing` condition,
treated as deny-by-default (§4.1 "Errors"). -/
def Evaluate (rules : String → Option PermissionRule) (userRank : Nat)
    (action : String) (isOwner isAdmin : Bool) : Bool :=
  match rules action with
  | none => false
  | some r =>
    if isAdmin then true
    else if isOwner && (match r.ownerThreshold with
        | some t => decide (t ≤ userRank)
        | none => false) then true
    else decide (r.othersThreshold ≤ userRank)

/-- Modelled from the spec: the batch form `EvaluateMany` (§4.1), evaluating a
list of actions in order. -/
def EvaluateMany (rules : String → Option PermissionRule) (userRank : Nat)
    (actions : List String) (isOwner isAdmin : Bool) : List Bool :=
  actions.map (fun a => Evaluate rules userRank a isOwner isAdmin)

/-- Modelled from the spec: `rankService.CheckOperationPermissions`, whose
implementation is not among the analysed sources.  The controller passes no
target object to this batch call, so it is the batch evaluation with no
ownership fact (`isOwner = false`); the admin flag comes from the request
context. -/
def CheckOperationPermissions (rules : String → Option PermissionRule)
    (userRank : Nat) (actions : List String) (isAdmin : Bool) : List Bool :=
  EvaluateMany rules userRank actions false isAdmin

/-- Action name `permission.AnswerDelete`. -/
def AnswerDelete : String := "answer.delete"

/-- Action name `permission.AnswerEdit`. -/
def AnswerEdit : String := "answer.edit"

/-- Action name `permission.AnswerEditWithoutReview`. -/
def AnswerEditWithoutReview : String := "answer.edit.without.review"

/-- Action name `permission.LinkUrlLimit`. -/
def LinkUrlLimit : String := "link.url.limit"

/-- The `RemoveAnswer` handler composed with the spec-modelled rank service:
`canList[0]` is the batch evaluation of `AnswerDelete` with no ownership fact,
and the ownership fact feeds the handler's `canList[0] || objectOwner`
decision. -/
def removeAnswerWithRank (rules : String → Option PermissionRule)
    (userRank : Nat) (isOwner isAdmin captchaPass removeErr : Bool) :
    List Ev × Resp :=
  removeAnswer
    { bindOk := true
      isAdmin := isAdmin
      captchaPass := captchaPass
      objectOwner := isOwner
      permsErr := false
      canDelete := (CheckOperationPermissions rules userRank [AnswerDelete] isAdmin).getD 0 false
      removeErr := removeErr }

/-- The `UpdateAnswer` handler composed with the spec-modelled rank service:
the batch evaluates `[AnswerEdit, AnswerEditWithoutReview, LinkUrlLimit]` with
no ownership fact, and the ownership fact feeds the handler's
`canList[0] || objectOwner` decision. -/
def updateAnswerWithRank (rules : String → Option PermissionRule)
    (userRank : Nat) (isOwner isAdmin captchaPass updateErr getErr : Bool) :
    List Ev × Resp :=
  updateAnswer
    { bindOk := true
      permsErr := false
      canList := CheckOperationPermissions rules userRank
        [AnswerEdit, AnswerEditWithoutReview, LinkUrlLimit] isAdmin
      isAdmin := isAdmin
      captchaPass := captchaPass
      objectOwner := isOwner
      updateErr := updateErr
      getErr := getErr }

/-! ### Canonical call orders and shared trace lemmas -/

/-- The order in which `RemoveAnswer` performs its collaborator calls. -/
def removeCanon : List Ev :=
  [.captchaVerify, .ownerCheck, .permsBatch, .mutation, .recordAttempt]

/-- The order in which the `AddAnswer` body performs its collaborator
calls. -/
def addBodyCanon : List Ev :=
  [.permsBatch, .captchaVerify, .permSingle, .siteWrite, .countByUser,
    .mutation, .recordAttempt, .getInfo, .ownerCheck]

/-- The order in which `AddAnswer` performs its collaborator calls, with the
duplicate check first and the deferred duplicate clear last. -/
def addCanon : List Ev := [.dupCheck] ++ addBodyCanon ++ [.dupClear]

/-- The order in which `UpdateAnswer` performs its collaborator calls. -/
def updateCanon : List Ev :=
  [.permsBatch, .captchaVerify, .ownerCheck, .mutation, .recordAttempt, .getInfo]

theorem removeT1_sublist (e : RemoveEnv) : (removeT1 e).Sublist removeCanon := by
  unfold removeT1; split_ifs <;> decide

theorem removeT2_sublist (e : RemoveEnv) : (removeT2 e).Sublist removeCanon := by
  unfold removeT2 removeT1; split_ifs <;> decide

theorem removeT3_sublist (e : RemoveEnv) : (removeT3 e).Sublist removeCanon := by
  unfold removeT3 removeT2 removeT1; split_ifs <;> decide

theorem removeAnswer_sublist (e : RemoveEnv) :
    (removeAnswer e).1.Sublist removeCanon := by
  unfold removeAnswer
  split_ifs <;>
    simp [removeT1_sublist, removeT2_sublist, removeT3_sublist, List.nil_sublist]

theorem addT8_sublist (e : AddEnv) : (addT8 e).Sublist addBodyCanon := by
  unfold addT8 addT7 addT6 addT5 addT4 addT3 addT2 addT1
  split_ifs <;> decide

theorem addAnswerBody_sublist (e : AddEnv) :
    (addAnswerBody e).1.Sublist addBodyCanon := by
  unfold addAnswerBody
  split_ifs <;>
    · simp only [addT8, addT7, addT6, addT5, addT4, addT3, addT2, addT1]
      first
        | (split_ifs <;> decide)
        | decide

theorem addAnswer_sublist (e : AddEnv) : (addAnswer e).1.Sublist addCanon := by
  unfold addAnswer
  split_ifs with h1 h2
  · exact List.nil_sublist _
  · decide
  · refine List.Sublist.append (List.Sublist.append ?_ (addAnswerBody_sublist e)) ?_
    · exact List.Sublist.refl _
    · split_ifs <;> simp

theorem updT5_sublist (e : UpdateEnv) : (updT5 e).Sublist updateCanon := by
  unfold updT5 updT4 updT3 updT2 updT1
  split_ifs <;> decide

theorem updateAnswer_sublist (e : UpdateEnv) :
    (updateAnswer e).1.Sublist updateCanon := by
  unfold updateAnswer
  split_ifs <;>
    · simp only [updT5, updT4, updT3, updT2, updT1]
      first
        | (split_ifs <;> decide)
        | decide

theorem addAnswer_run (e : AddEnv) (hb : e.bindOk = true) (hr : e.reject = false) :
    addAnswer e =
      ([Ev.dupCheck] ++ (addAnswerBody e).1 ++
        (if (addAnswerBody e).2 = .ok then [] else [.dupClear]), (addAnswerBody e).2) := by
  unfold addAnswer
  simp [hb, hr]

theorem addAnswerBody_record_count (e : AddEnv) :
    Ev.mutation ∈ (addAnswerBody e).1 →
    (addAnswerBody e).1.count Ev.recordAttempt =
      (if e.insertErr then 0 else if addNeedCaptcha e then 1 else 0) := by
  unfold addAnswerBody
  split_ifs <;>
    · simp only [addT8, addT7, addT6, addT5, addT4, addT3, addT2, addT1]
      first
        | (split_ifs <;> first | decide | simp_all)
        | decide
        | simp_all

theorem addAnswerBody_captcha_mem (e : AddEnv) (hp : e.permsErr = false) :
    (Ev.captchaVerify ∈ (addAnswerBody e).1 ↔ addNeedCaptcha e = true) := by
  unfold addAnswerBody
  split_ifs <;>
    · simp only [addT8, addT7, addT6, addT5, addT4, addT3, addT2, addT1]
      first
        | (split_ifs <;> simp_all)
        | simp_all

theorem addAnswerBody_no_record_when_exempt (e : AddEnv)
    (hn : addNeedCaptcha e = false) :
    Ev.recordAttempt ∉ (addAnswerBody e).1 := by
  unfold addAnswerBody
  split_ifs <;>
    · simp only [addT8, addT7, addT6, addT5, addT4, addT3, addT2, addT1]
      first
        | (split_ifs <;> simp_all)
        | simp_all

/-! ### The gating sequence claimed by the spec -/

/-- The position of an event in the gating sequence claimed by the spec
(§2 control flow): duplicate suppression, then permission evaluation (the
rank-service permission and ownership lookups), then challenge-gate
verification, then the domain mutation, then the challenge-gate attempt
record, then duplicate release; events outside the gating sequence have no
position. -/
def gateStep : Ev → Option Nat
  | .dupCheck => some 0
  | .permsBatch => some 1
  | .permSingle => some 1
  | .ownerCheck => some 1
  | .captchaVerify => some 2
  | .mutation => some 3
  | .recordAttempt => some 4
  | .dupClear => some 5
  | _ => none

/-- Whether a list of naturals never decreases. -/
def nondecreasing : List Nat → Bool
  | [] => true
  | [_] => true
  | a :: b :: rest => decide (a ≤ b) && nondecreasing (b :: rest)

/-- Whether a trace performs the gating steps in the order claimed by the
spec, never performing a later gating step before an earlier one. -/
def gateOrderOK (t : List Ev) : Bool := nondecreasing (t.filterMap gateStep)

/-- C1 (counterexample): the claimed order duplicate-suppression →
permission-evaluation → challenge-verification → mutation → attempt-record →
release does not hold.  A bound, non-admin `RemoveAnswer` request with a
passing captcha and sufficient rank produces the trace
`[captchaVerify, ownerCheck, permsBatch, mutation, recordAttempt]`: the
challenge-gate verification runs before the permission evaluation, and the
handler never invokes the duplicate suppressor at all. -/
theorem removeAnswer_violates_claimed_gate_order :
    gateOrderOK (removeAnswer ⟨true, false, true, false, false, true, false⟩).1 = false ∧
    (removeAnswer ⟨true, false, true, false, false, true, false⟩).1 =
      [.captchaVerify, .ownerCheck, .permsBatch, .mutation, .recordAttempt] ∧
    Ev.dupCheck ∉ (removeAnswer ⟨true, false, true, false, false, true, false⟩).1 := by
  decide

/-- C1 (amended): each handler performs its collaborator calls in a fixed
order — `AddAnswer`: duplicate admission, batch permission lookup, challenge
verification, `AnswerAdd` permission check, site-write lookup, answer count,
mutation, attempt record, answer fetch, ownership lookup, duplicate release
on failure; `RemoveAnswer`: challenge verification, ownership lookup, batch
permission check, mutation, attempt record; `UpdateAnswer`: batch permission
lookup, challenge verification, ownership lookup, mutation, attempt record,
answer fetch.  In particular the challenge-gate verification precedes, not
follows, the decisive permission evaluation in `RemoveAnswer`, and only
`AddAnswer` invokes the duplicate suppressor. -/
theorem answer_handler_call_order (er : RemoveEnv) (ea : AddEnv) (eu : UpdateEnv) :
    (removeAnswer er).1.Sublist removeCanon ∧
    (addAnswer ea).1.Sublist addCanon ∧
    (updateAnswer eu).1.Sublist updateCanon :=
  ⟨removeAnswer_sublist er, addAnswer_sublist ea, updateAnswer_sublist eu⟩

/-- C2: for every bound `AddAnswer` request the duplicate check is the first
collaborator call, and a duplicate-rejected request terminates with the
rejection response whatever the admin flag is — being admin never bypasses
the duplicate suppressor, whose verdict is computed before the admin flag is
even read. -/
theorem addAnswer_duplicate_check_first (ea : AddEnv) (b : Bool)
    (hb : ea.bindOk = true) :
    (addAnswer ea).1.head? = some Ev.dupCheck ∧
    (ea.reject = true →
      addAnswer { ea with isAdmin := b } = ([Ev.dupCheck], Resp.dupRejected)) := by
  obtain ⟨bindOk, reject, permsErr, canList, isAdmin, captchaPass, canAddErr, canAdd,
    siteWriteErr, restrictAnswer, countErr, answerCount, insertErr, getErr, getHas,
    objectOwner⟩ := ea
  subst hb
  constructor
  · unfold addAnswer
    split_ifs <;> simp_all
  · intro hr
    simp only at hr
    subst hr
    unfold addAnswer
    simp

theorem addAnswer_duplicate_check_first_witness :
    (addAnswer ⟨true, true, false, [], false, false, false, false, false, false,
      false, 0, false, false, false, false⟩).1.head? = some Ev.dupCheck ∧
    addAnswer { (⟨true, true, false, [], false, false, false, false, false, false,
      false, 0, false, false, false, false⟩ : AddEnv) with isAdmin := true } =
      ([Ev.dupCheck], Resp.dupRejected) :=
  ⟨(addAnswer_duplicate_check_first _ true rfl).1,
    (addAnswer_duplicate_check_first _ true rfl).2 rfl⟩

/-- C3: for every `AddAnswer` request that binds and is admitted by the
duplicate suppressor, the duplicate record is cleared exactly when the final
response is not the success response: `dupClear` appears in the trace iff the
outcome is not `ok`. -/
theorem addAnswer_clears_duplicate_iff_failure (ea : AddEnv)
    (hb : ea.bindOk = true) (hr : ea.reject = false) :
    (Ev.dupClear ∈ (addAnswer ea).1 ↔ (addAnswer ea).2 ≠ Resp.ok) := by
  have hnb : Ev.dupClear ∉ (addAnswerBody ea).1 := fun hm => by
    have hx := (addAnswerBody_sublist ea).subset hm
    simp [addBodyCanon] at hx
  unfold addAnswer
  simp only [hb, hr, Bool.not_true, Bool.false_eq_true, if_false]
  by_cases hc : (addAnswerBody ea).2 = Resp.ok <;>
    simp [hc, hnb, List.mem_append]

/-- C4: in each of `RemoveAnswer`, `AddAnswer` and `UpdateAnswer`, when the
permission check denies (and the handler reaches it), the response is the
`Forbidden` outcome with `RankFailToMeetTheCondition`, the domain mutation is
not invoked, and no challenge-gate attempt is recorded. -/
theorem permission_denied_no_side_effects
    (er : RemoveEnv) (ea : AddEnv) (eu : UpdateEnv)
    (hrb : er.bindOk = true) (hrc : er.isAdmin = true ∨ er.captchaPass = true)
    (hrp : er.permsErr = false) (hrd : er.canDelete = false) (hro : er.objectOwner = false)
    (hab : ea.bindOk = true) (har : ea.reject = false) (hap : ea.permsErr = false)
    (hac : ea.captchaPass = true) (hae : ea.canAddErr = false) (haa : ea.canAdd = false)
    (hub : eu.bindOk = true) (hup : eu.permsErr = false) (huc : eu.captchaPass = true)
    (hue : eu.canList.getD 0 false = false) (huo : eu.objectOwner = false) :
    ((removeAnswer er).2 = .forbidden RankFailToMeetTheCondition ∧
      Ev.mutation ∉ (removeAnswer er).1 ∧ Ev.recordAttempt ∉ (removeAnswer er).1) ∧
    ((addAnswer ea).2 = .forbidden RankFailToMeetTheCondition ∧
      Ev.mutation ∉ (addAnswer ea).1 ∧ Ev.recordAttempt ∉ (addAnswer ea).1) ∧
    ((updateAnswer eu).2 = .forbidden RankFailToMeetTheCondition ∧
      Ev.mutation ∉ (updateAnswer eu).1 ∧ Ev.recordAttempt ∉ (updateAnswer eu).1) := by
  refine ⟨?_, ?_, ?_⟩
  · unfold removeAnswer removeT2 removeT1
    rcases hrc with h | h <;> split_ifs <;> simp_all
  · have hbody : addAnswerBody ea = (addT3 ea, .forbidden RankFailToMeetTheCondition) := by
      unfold addAnswerBody
      simp [hap, hac, hae, haa]
    have htr : (addAnswer ea).1 = [Ev.dupCheck] ++ addT3 ea ++ [Ev.dupClear] := by
      rw [addAnswer_run ea hab har, hbody]
      simp
    have hre : (addAnswer ea).2 = .forbidden RankFailToMeetTheCondition := by
      rw [addAnswer_run ea hab har, hbody]
    refine ⟨hre, ?_, ?_⟩ <;>
      · rw [htr]
        simp only [addT3, addT2, addT1]
        split_ifs <;> decide
  · unfold updateAnswer updT3 updT2 updT1
    split_ifs <;> simp_all

theorem permission_denied_no_side_effects_witness :
    ((removeAnswer ⟨true, false, true, false, false, false, false⟩).2 =
        .forbidden RankFailToMeetTheCondition ∧
      Ev.mutation ∉ (removeAnswer ⟨true, false, true, false, false, false, false⟩).1 ∧
      Ev.recordAttempt ∉ (removeAnswer ⟨true, false, true, false, false, false, false⟩).1) ∧
    ((addAnswer ⟨true, false, false, [true, true, false], false, true, false, false,
        false, false, false, 0, false, false, true, false⟩).2 =
        .forbidden RankFailToMeetTheCondition ∧
      Ev.mutation ∉ (addAnswer ⟨true, false, false, [true, true, false], false, true,
        false, false, false, false, false, 0, false, false, true, false⟩).1 ∧
      Ev.recordAttempt ∉ (addAnswer ⟨true, false, false, [true, true, false], false,
        true, false, false, false, false, false, 0, false, false, true, false⟩).1) ∧
    ((updateAnswer ⟨true, false, [false, false, false], false, true, false, false,
        false⟩).2 = .forbidden RankFailToMeetTheCondition ∧
      Ev.mutation ∉ (updateAnswer ⟨true, false, [false, false, false], false, true,
        false, false, false⟩).1 ∧
      Ev.recordAttempt ∉ (updateAnswer ⟨true, false, [false, false, false], false,
        true, false, false, false⟩).1) :=
  permission_denied_no_side_effects _ _ _ rfl (Or.inr rfl) rfl rfl rfl rfl rfl rfl
    rfl rfl rfl rfl rfl rfl rfl rfl

/-- C5 (counterexample): the attempt record is not made regardless of the
mutation's outcome.  A bound, admitted, non-admin `AddAnswer` request that
passes the captcha and every permission check but whose insert mutation fails
performs the mutation yet records no challenge-gate attempt, so the record is
not made once per completed attempt. -/
theorem addAnswer_no_attempt_record_on_failed_insert :
    Ev.mutation ∈ (addAnswer ⟨true, false, false, [true, true, false], false, true,
      false, true, false, false, false, 0, true, false, true, false⟩).1 ∧
    (addAnswer ⟨true, false, false, [true, true, false], false, true, false, true,
      false, false, false, 0, true, false, true, false⟩).1.count Ev.recordAttempt = 0 ∧
    (addAnswer ⟨true, false, false, [true, true, false], false, true, false, true,
      false, false, false, 0, true, false, true, false⟩).2 = Resp.err := by
  decide

/-- C5 (amended): when a handler reaches the domain mutation, `RemoveAnswer`
records the challenge-gate attempt exactly once for non-admins regardless of
the mutation's outcome, while `AddAnswer` and `UpdateAnswer` record it exactly
once for non-exempt users only when the mutation succeeds, and never when the
mutation fails. -/
theorem attempt_record_count_per_mutation (er : RemoveEnv) (ea : AddEnv)
    (eu : UpdateEnv) :
    (Ev.mutation ∈ (removeAnswer er).1 →
      (removeAnswer er).1.count Ev.recordAttempt = (if er.isAdmin then 0 else 1)) ∧
    (Ev.mutation ∈ (addAnswer ea).1 →
      (addAnswer ea).1.count Ev.recordAttempt =
        (if ea.insertErr then 0 else if addNeedCaptcha ea then 1 else 0)) ∧
    (Ev.mutation ∈ (updateAnswer eu).1 →
      (updateAnswer eu).1.count Ev.recordAttempt =
        (if eu.updateErr then 0 else if updNeedCaptcha eu then 1 else 0)) := by
  refine ⟨?_, ?_, ?_⟩
  · unfold removeAnswer removeT3 removeT2 removeT1
    split_ifs <;> intro h <;> simp_all
  · by_cases hb : ea.bindOk = true
    · by_cases hr : ea.reject = false
      · rw [addAnswer_run ea hb hr]
        intro h
        have hm : Ev.mutation ∈ (addAnswerBody ea).1 := by
          simpa using h
        have hc := addAnswerBody_record_count ea hm
        simp only [List.count_append, hc]
        split_ifs <;> simp
      · unfold addAnswer
        simp only [Bool.not_eq_false] at hr
        simp [hr, hb]
    · unfold addAnswer
      simp only [Bool.not_eq_true] at hb
      simp [hb]
  · unfold updateAnswer updT5 updT4 updT3 updT2 updT1
    split_ifs <;> intro h <;> simp_all

theorem attempt_record_count_per_mutation_witness :
    Ev.mutation ∈ (removeAnswer ⟨true, false, true, false, false, true, true⟩).1 ∧
    (removeAnswer ⟨true, false, true, false, false, true, true⟩).1.count
      Ev.recordAttempt = 1 :=
  ⟨by decide, by
    have h := (attempt_record_count_per_mutation
      ⟨true, false, true, false, false, true, true⟩
      ⟨true, false, false, [], false, false, false, false, false, false, false, 0,
        false, false, false, false⟩
      ⟨true, false, [], false, false, false, false, false⟩).1 (by decide)
    simpa using h⟩

theorem addAnswer_clears_duplicate_iff_failure_witness :
    Ev.dupClear ∈ (addAnswer ⟨true, false, false, [true, true, false], false, false,
      false, true, false, false, false, 0, false, false, true, false⟩).1 ↔
    (addAnswer ⟨true, false, false, [true, true, false], false, false, false, true,
      false, false, false, 0, false, false, true, false⟩).2 ≠ Resp.ok :=
  addAnswer_clears_duplicate_iff_failure _ rfl rfl

/-- C6 (counterexample): an admin/moderator does not skip the challenge gate
in `AddAnswer`.  A bound, admitted request by an admin whose `LinkUrlLimit`
permission evaluates to `false` still performs the captcha verification, and
after a successful insert the attempt is also recorded, contradicting the
claim that admins skip the challenge gate entirely as in `RemoveAnswer`. -/
theorem addAnswer_admin_still_challenged :
    Ev.captchaVerify ∈ (addAnswer ⟨true, false, false, [true, true, false], true,
      true, false, true, false, false, false, 0, false, false, true, false⟩).1 ∧
    Ev.recordAttempt ∈ (addAnswer ⟨true, false, false, [true, true, false], true,
      true, false, true, false, false, false, 0, false, false, true, false⟩).1 := by
  decide

/-- C6 (amended): in `AddAnswer` and `UpdateAnswer` the challenge gate is
skipped (no captcha verification, no attempt record) exactly when the acting
user is an admin/moderator AND has the `LinkUrlLimit` permission; the admin
flag alone does not suffice.  `RemoveAnswer` skips the challenge gate for
admins alone. -/
theorem challenge_gate_skip_condition (ea : AddEnv) (eu : UpdateEnv) (er : RemoveEnv)
    (hab : ea.bindOk = true) (har : ea.reject = false) (hap : ea.permsErr = false)
    (hub : eu.bindOk = true) (hup : eu.permsErr = false)
    (hrb : er.bindOk = true) :
    (Ev.captchaVerify ∈ (addAnswer ea).1 ↔
      ¬(ea.isAdmin = true ∧ ea.canList.getD 2 false = true)) ∧
    (ea.isAdmin = true ∧ ea.canList.getD 2 false = true →
      Ev.recordAttempt ∉ (addAnswer ea).1) ∧
    (Ev.captchaVerify ∈ (updateAnswer eu).1 ↔
      ¬(eu.isAdmin = true ∧ eu.canList.getD 2 false = true)) ∧
    (eu.isAdmin = true ∧ eu.canList.getD 2 false = true →
      Ev.recordAttempt ∉ (updateAnswer eu).1) ∧
    (Ev.captchaVerify ∈ (removeAnswer er).1 ↔ er.isAdmin = false) ∧
    (er.isAdmin = true → Ev.recordAttempt ∉ (removeAnswer er).1) := by
  have hneed : (addNeedCaptcha ea = true) ↔
      ¬(ea.isAdmin = true ∧ ea.canList.getD 2 false = true) := by
    unfold addNeedCaptcha
    cases ea.isAdmin <;> cases hgl : ea.canList.getD 2 false <;> simp [hgl]
  have huneed : (updNeedCaptcha eu = true) ↔
      ¬(eu.isAdmin = true ∧ eu.canList.getD 2 false = true) := by
    unfold updNeedCaptcha
    cases eu.isAdmin <;> cases hgl : eu.canList.getD 2 false <;> simp [hgl]
  refine ⟨?_, ?_, ?_, ?_, ?_, ?_⟩
  · rw [addAnswer_run ea hab har, ← hneed, ← addAnswerBody_captcha_mem ea hap]
    simp only [List.mem_append]
    constructor
    · rintro ((h | h) | h)
      · exact absurd h (by decide)
      · exact h
      · exfalso
        revert h
        split_ifs <;> decide
    · intro h
      exact Or.inl (Or.inr h)
  · intro hx
    have hn : addNeedCaptcha ea = false := by
      unfold addNeedCaptcha
      rw [hx.1, hx.2]
      rfl
    rw [addAnswer_run ea hab har]
    simp only [List.mem_append]
    rintro ((h | h) | h)
    · exact absurd h (by decide)
    · exact addAnswerBody_no_record_when_exempt ea hn h
    · revert h
      split_ifs <;> decide
  · unfold updateAnswer
    rw [← huneed]
    split_ifs <;>
      · simp only [updT5, updT4, updT3, updT2, updT1]
        first
          | (split_ifs <;> simp_all)
          | simp_all
  · intro hx
    have hn : updNeedCaptcha eu = false := by
      unfold updNeedCaptcha
      rw [hx.1, hx.2]
      rfl
    unfold updateAnswer
    split_ifs <;>
      · simp only [updT5, updT4, updT3, updT2, updT1]
        first
          | (split_ifs <;> simp_all)
          | simp_all
  · unfold removeAnswer removeT3 removeT2 removeT1
    split_ifs <;> simp_all
  · intro hx
    unfold removeAnswer removeT3 removeT2 removeT1
    split_ifs <;> simp_all

theorem challenge_gate_skip_condition_witness :
    (Ev.captchaVerify ∈ (addAnswer ⟨true, false, false, [true, true, true], true,
        true, false, true, false, false, false, 0, false, false, true, false⟩).1 ↔
      ¬((true : Bool) = true ∧ ([true, true, true].getD 2 false : Bool) = true)) ∧
    Ev.recordAttempt ∉ (addAnswer ⟨true, false, false, [true, true, true], true,
        true, false, true, false, false, false, 0, false, false, true, false⟩).1 := by
  have h := challenge_gate_skip_condition
    ⟨true, false, false, [true, true, true], true, true, false, true, false, false,
      false, 0, false, false, true, false⟩
    ⟨true, false, [true, true, true], true, true, false, false, false⟩
    ⟨true, true, true, false, false, true, false⟩
    rfl rfl rfl rfl rfl rfl
  exact ⟨h.1, h.2.1 (by decide)⟩

theorem removeAnswer_mutation_mem (e : RemoveEnv) (hb : e.bindOk = true)
    (hc : e.captchaPass = true) (hp : e.permsErr = false) :
    (Ev.mutation ∈ (removeAnswer e).1 ↔ (e.canDelete || e.objectOwner) = true) := by
  unfold removeAnswer removeT3 removeT2 removeT1
  split_ifs <;> simp_all <;> cases hcd : e.canDelete <;> simp_all

theorem updateAnswer_mutation_mem (e : UpdateEnv) (hb : e.bindOk = true)
    (hp : e.permsErr = false) (hc : e.captchaPass = true) :
    (Ev.mutation ∈ (updateAnswer e).1 ↔
      (e.canList.getD 0 false || e.objectOwner) = true) := by
  by_cases hcap : updNeedCaptcha e = true <;>
    · unfold updateAnswer updT5 updT4 updT3 updT2 updT1
      split_ifs <;> simp_all <;>
        cases hcd : (e.canList[0]?.getD false) <;> simp_all

/-- C7 (counterexample): a user below the "others" threshold who owns the
object but is below the configured owner threshold is not denied.  With the
`AnswerDelete` rule requiring rank 1000 for others and 30 for owners, a
non-admin owner of rank 0 with a passing captcha has their `RemoveAnswer`
request permitted — the mutation runs and the response is success — because
the handler grants `canList[0] || objectOwner` and the ownership fact alone
suffices, with no owner-rank comparison. -/
theorem removeAnswer_owner_below_owner_threshold_permitted :
    (removeAnswerWithRank
      (fun a => if a = AnswerDelete then some ⟨1000, some 30⟩ else none)
      0 true false true false).2 = Resp.ok ∧
    Ev.mutation ∈ (removeAnswerWithRank
      (fun a => if a = AnswerDelete then some ⟨1000, some 30⟩ else none)
      0 true false true false).1 := by
  decide

/-- C7 (amended): for a user whose rank is below the action's "others"
threshold, the delete (and edit) operation is permitted exactly when the user
is an admin/moderator or owns the object: ownership alone suffices, with no
owner-threshold rank comparison in the handler's decision. -/
theorem below_threshold_permitted_iff_admin_or_owner
    (rules : String → Option PermissionRule) (userRank : Nat)
    (isOwner isAdmin removeErr updateErr getErr : Bool)
    (rd re : PermissionRule)
    (hrd : rules AnswerDelete = some rd) (hdlt : userRank < rd.othersThreshold)
    (hre : rules AnswerEdit = some re) (helt : userRank < re.othersThreshold) :
    (Ev.mutation ∈ (removeAnswerWithRank rules userRank isOwner isAdmin
        true removeErr).1 ↔ (isAdmin = true ∨ isOwner = true)) ∧
    (Ev.mutation ∈ (updateAnswerWithRank rules userRank isOwner isAdmin
        true updateErr getErr).1 ↔ (isAdmin = true ∨ isOwner = true)) := by
  have hvd : Evaluate rules userRank AnswerDelete false isAdmin = isAdmin := by
    unfold Evaluate
    rw [hrd]
    cases isAdmin
    · simp [decide_eq_false (Nat.not_le.mpr hdlt)]
    · simp
  have hve : Evaluate rules userRank AnswerEdit false isAdmin = isAdmin := by
    unfold Evaluate
    rw [hre]
    cases isAdmin
    · simp [decide_eq_false (Nat.not_le.mpr helt)]
    · simp
  constructor
  · rw [removeAnswerWithRank, removeAnswer_mutation_mem _ rfl rfl rfl]
    simp only [CheckOperationPermissions, EvaluateMany, List.map_cons, List.map_nil,
      List.getD_cons_zero, hvd]
    cases isAdmin <;> cases isOwner <;> simp
  · rw [updateAnswerWithRank, updateAnswer_mutation_mem _ rfl rfl rfl]
    simp only [CheckOperationPermissions, EvaluateMany, List.map_cons, List.map_nil,
      List.getD_cons_zero, hve]
    cases isAdmin <;> cases isOwner <;> simp

theorem below_threshold_permitted_iff_admin_or_owner_witness :
    (Ev.mutation ∈ (removeAnswerWithRank
        (fun a => if a = AnswerDelete then some ⟨1000, some 30⟩ else
          if a = AnswerEdit then some ⟨500, some 20⟩ else none)
        0 true false true false).1 ↔ ((false : Bool) = true ∨ (true : Bool) = true)) ∧
    (Ev.mutation ∈ (updateAnswerWithRank
        (fun a => if a = AnswerDelete then some ⟨1000, some 30⟩ else
          if a = AnswerEdit then some ⟨500, some 20⟩ else none)
        0 true false true false false).1 ↔ ((false : Bool) = true ∨ (true : Bool) = true)) :=
  below_threshold_permitted_iff_admin_or_owner
    (fun a => if a = AnswerDelete then some ⟨1000, some 30⟩ else
      if a = AnswerEdit then some ⟨500, some 20⟩ else none)
    0 true false false false false ⟨1000, some 30⟩ ⟨500, some 20⟩
    (by decide) (by decide) (by decide) (by decide)

/-- C8: the batch permission evaluation returns one boolean per requested
action, in the same order: the result list has the length of the action list
and its i-th entry is the single-action evaluation of the i-th action. -/
theorem evaluateMany_pointwise (rules : String → Option PermissionRule)
    (userRank : Nat) (actions : List String) (isOwner isAdmin : Bool) :
    (EvaluateMany rules userRank actions isOwner isAdmin).length = actions.length ∧
    ∀ i : Nat, (EvaluateMany rules userRank actions isOwner isAdmin)[i]? =
      (actions[i]?).map (fun a => Evaluate rules userRank a isOwner isAdmin) := by
  refine ⟨List.length_map _ _, fun i => ?_⟩
  unfold EvaluateMany
  exact List.getElem?_map _ actions i

/-- C9: a bound, admitted `AddAnswer` request that passes the captcha and the
`AnswerAdd` permission check, on a site whose write configuration has
`RestrictAnswer` enabled and where the acting user already has at least one
answer on the question, receives the `Forbidden` `AnswerRestrictAnswer`
response and the insert mutation is not invoked. -/
theorem addAnswer_restricted_second_answer (ea : AddEnv)
    (hb : ea.bindOk = true) (hr : ea.reject = false) (hp : ea.permsErr = false)
    (hc : ea.captchaPass = true) (hce : ea.canAddErr = false)
    (hca : ea.canAdd = true) (hsw : ea.siteWriteErr = false)
    (hra : ea.restrictAnswer = true) (hcnt : ea.countErr = false)
    (hn : 1 ≤ ea.answerCount) :
    (addAnswer ea).2 = Resp.forbidden AnswerRestrictAnswer ∧
    Ev.mutation ∉ (addAnswer ea).1 := by
  have hbody : addAnswerBody ea = (addT5 ea, .forbidden AnswerRestrictAnswer) := by
    unfold addAnswerBody
    simp [hp, hc, hce, hca, hsw, hra, hcnt, hn]
  have htr : (addAnswer ea).1 = [Ev.dupCheck] ++ addT5 ea ++ [Ev.dupClear] := by
    rw [addAnswer_run ea hb hr, hbody]
    simp
  have hre : (addAnswer ea).2 = Resp.forbidden AnswerRestrictAnswer := by
    rw [addAnswer_run ea hb hr, hbody]
  refine ⟨hre, ?_⟩
  rw [htr]
  simp only [addT5, addT4, addT3, addT2, addT1]
  split_ifs <;> decide

theorem addAnswer_restricted_second_answer_witness :
    (addAnswer ⟨true, false, false, [true, true, false], false, true, false, true,
      false, true, false, 1, false, false, true, false⟩).2 =
      Resp.forbidden AnswerRestrictAnswer ∧
    Ev.mutation ∉ (addAnswer ⟨true, false, false, [true, true, false], false, true,
      false, true, false, true, false, 1, false, false, true, false⟩).1 :=
  addAnswer_restricted_second_answer _ rfl rfl rfl rfl rfl rfl rfl rfl rfl
    (by decide)

/-- C10: a bound `AdminUpdateAnswerStatus` request invokes the status mutation
directly and performs none of the gating steps: no duplicate check or clear,
no permission or ownership lookup, no captcha verification, and no
challenge-gate attempt record. -/
theorem adminUpdateAnswerStatus_no_gating (e : AdminStatusEnv)
    (hb : e.bindOk = true) :
    (adminUpdateAnswerStatus e).1 = [Ev.mutation] ∧
    Ev.dupCheck ∉ (adminUpdateAnswerStatus e).1 ∧
    Ev.dupClear ∉ (adminUpdateAnswerStatus e).1 ∧
    Ev.permsBatch ∉ (adminUpdateAnswerStatus e).1 ∧
    Ev.permSingle ∉ (adminUpdateAnswerStatus e).1 ∧
    Ev.ownerCheck ∉ (adminUpdateAnswerStatus e).1 ∧
    Ev.captchaVerify ∉ (adminUpdateAnswerStatus e).1 ∧
    Ev.recordAttempt ∉ (adminUpdateAnswerStatus e).1 := by
  unfold adminUpdateAnswerStatus
  simp [hb]

theorem adminUpdateAnswerStatus_no_gating_witness :
    (adminUpdateAnswerStatus ⟨true, false⟩).1 = [Ev.mutation] ∧
    Ev.dupCheck ∉ (adminUpdateAnswerStatus ⟨true, false⟩).1 ∧
    Ev.dupClear ∉ (adminUpdateAnswerStatus ⟨true, false⟩).1 ∧
    Ev.permsBatch ∉ (adminUpdateAnswerStatus ⟨true, false⟩).1 ∧
    Ev.permSingle ∉ (adminUpdateAnswerStatus ⟨true, false⟩).1 ∧
    Ev.ownerCheck ∉ (adminUpdateAnswerStatus ⟨true, false⟩).1 ∧
    Ev.captchaVerify ∉ (adminUpdateAnswerStatus ⟨true, false⟩).1 ∧
    Ev.recordAttempt ∉ (adminUpdateAnswerStatus ⟨true, false⟩).1 :=
  adminUpdateAnswerStatus_no_gating ⟨true, false⟩ rfl
